import Mathlib

/-
Shallow embedding of the aliamg1356/Smite repository:
  * src/node/app/routers/agent.py — the agent HTTP control endpoints
    (apply/remove/query tunnels, push usage, node status);
  * src/panel/app/hysteria2_server.py — the certificate bootstrap
    routine of the Hysteria2 panel-node transport.

Python exceptions are embedded as Except values (the router turns them
into HTTP 500 responses via str(e)); the adapter manager, which is not
part of the visible source, is embedded abstractly as a record of the
operations the routers invoke on it.
-/

namespace Smite

/-- An adapter tracked in adapter_manager.active_tunnels.  The routers only
call get_usage_mb on it; a raised exception is an Except.error carrying
str(e). -/
structure Adapter where
  get_usage_mb : String → Except String ℚ

/-- The adapter manager as seen from src/node/app/routers/agent.py:
active_tunnels is a dict from tunnel_id to adapter (embedded as an
association list in insertion order), and the two awaited operations
either return normally or raise (Except.error with str(e)).  The
TunnelRecord returned by get_tunnel_status is opaque to the router and
embedded as a String. -/
structure AdapterManager where
  active_tunnels : List (String × Adapter)
  apply_tunnel : String → String → String → Except String Unit
  get_tunnel_status : String → Except String String

/-- Python dict.get on the active_tunnels association list (returns None
when the key is absent, never raises). -/
def dictGet : List (String × Adapter) → String → Option Adapter
  | [], _ => none
  | (k, v) :: rest, key => if key = k then some v else dictGet rest key

/-- Request body of POST /tunnels/apply (class TunnelApply).  The opaque
spec payload (Dict[str, Any]) is embedded as a String. -/
structure TunnelApply where
  tunnel_id : String
  core : String
  type : String
  spec : String

/-- Request body of POST /usage/push (class UsagePush). -/
structure UsagePush where
  tunnel_id : String
  bytes_used : Int

/-- Result of a FastAPI handler: a normal JSON body, or a raised
HTTPException with a status code and a detail string. -/
inductive HandlerResult (α : Type) where
  | ok (body : α)
  | httpException (status_code : Nat) (detail : String)
deriving DecidableEq

/-- A response body of shape with fields status and message. -/
structure StatusMessage where
  status : String
  message : String
deriving DecidableEq

/-- A response body of shape with fields status and data. -/
structure StatusData where
  status : String
  data : String
deriving DecidableEq

/-- Response of POST /usage/push: either a body with status ok and
bytes_used, or a body with status error and message. -/
inductive UsageResponse where
  | ok (bytes_used : Int)
  | error (message : String)
deriving DecidableEq

/-- Whether a usage response is the structured error body. -/
def UsageResponse.isError : UsageResponse → Bool
  | .error _ => true
  | _ => false

/-- Response of GET /status. -/
structure NodeStatus where
  status : String
  active_tunnels : Nat
  tunnels : List String
deriving DecidableEq

/-- Python int() applied to an exact rational value: truncation toward
zero, as in int(usage_mb * 1024 * 1024). -/
def pyInt (q : ℚ) : Int := Int.tdiv q.num (q.den : Int)

namespace agent

/-- POST /tunnels/apply handler (agent.py lines 46-73): awaits
adapter_manager.apply_tunnel inside try; on success returns the success
body, on any exception raises HTTPException(500, str(e)). -/
def apply_tunnel (m : AdapterManager) (data : TunnelApply) : HandlerResult StatusMessage :=
  match m.apply_tunnel data.tunnel_id data.type data.spec with
  | Except.ok _ => HandlerResult.ok ⟨("success"), ("Tunnel applied")⟩
  | Except.error e => HandlerResult.httpException 500 e

/-- GET /tunnels/status handler (agent.py lines 88-97): awaits
adapter_manager.get_tunnel_status inside try; on success returns the
record, on any exception raises HTTPException(500, str(e)). -/
def get_tunnel_status (m : AdapterManager) (tunnel_id : String) : HandlerResult StatusData :=
  match m.get_tunnel_status tunnel_id with
  | Except.ok status => HandlerResult.ok ⟨("success"), status⟩
  | Except.error e => HandlerResult.httpException 500 e

/-- POST /usage/push handler (agent.py lines 100-116): looks the tunnel up
in active_tunnels with dict.get; when an adapter is present it overwrites
data.bytes_used with int(adapter.get_usage_mb(tunnel_id) * 1024 * 1024);
then acknowledges with status ok, and any exception inside the try block
is returned as the structured error body rather than raised. -/
def push_usage (m : AdapterManager) (data : UsagePush) : UsageResponse :=
  match dictGet m.active_tunnels data.tunnel_id with
  | some adapter =>
      match adapter.get_usage_mb data.tunnel_id with
      | Except.ok usage_mb => UsageResponse.ok (pyInt (usage_mb * 1024 * 1024))
      | Except.error e => UsageResponse.error e
  | none => UsageResponse.ok data.bytes_used

/-- GET /status handler (agent.py lines 119-128). -/
def get_status (m : AdapterManager) : NodeStatus :=
  { status := ("ok")
    active_tunnels := m.active_tunnels.length
    tunnels := m.active_tunnels.map Prod.fst }

end agent

/-- A concrete adapter whose usage sampling succeeds with 5 MB. -/
def adapterOk : Adapter := ⟨fun _ => Except.ok (5 : ℚ)⟩

/-- A concrete adapter whose usage sampling raises. -/
def adapterErr : Adapter := ⟨fun _ => Except.error ("usage boom")⟩

/-- A concrete manager with no active tunnels whose operations succeed. -/
def mgrEmpty : AdapterManager :=
  ⟨[], fun _ _ _ => Except.ok (), fun _ => Except.ok ("record-t1")⟩

/-- A concrete manager tracking tunnel t1 with the given adapter, whose
apply and status operations raise. -/
def mgrWith (a : Adapter) : AdapterManager :=
  ⟨[(("t1"), a)], fun _ _ _ => Except.error ("apply boom"),
   fun _ => Except.error ("tunnel not found")⟩

/-- Claim C1: the POST /tunnels/apply handler returns the status success
body exactly when adapter_manager.apply_tunnel returns normally, and when
apply_tunnel raises any error it surfaces HTTPException 500 carrying the
failure detail str(e) — the error is never silently swallowed. -/
theorem C1_apply_tunnel_surfaces_errors (m : AdapterManager) (data : TunnelApply) :
    (∀ u, m.apply_tunnel data.tunnel_id data.type data.spec = Except.ok u →
        agent.apply_tunnel m data = HandlerResult.ok ⟨("success"), ("Tunnel applied")⟩) ∧
    (∀ e, m.apply_tunnel data.tunnel_id data.type data.spec = Except.error e →
        agent.apply_tunnel m data = HandlerResult.httpException 500 e) := by
  constructor <;> intro x h <;> simp [agent.apply_tunnel, h]

/-- Witness for C1 at concrete managers: a succeeding apply yields the
success body and a raising apply yields a 500 with the detail. -/
theorem C1_witness :
    agent.apply_tunnel mgrEmpty ⟨("t1"), ("c"), ("wireguard"), ("spec1")⟩
      = HandlerResult.ok ⟨("success"), ("Tunnel applied")⟩ ∧
    agent.apply_tunnel (mgrWith adapterOk) ⟨("t1"), ("c"), ("wireguard"), ("spec1")⟩
      = HandlerResult.httpException 500 ("apply boom") :=
  ⟨(C1_apply_tunnel_surfaces_errors mgrEmpty ⟨("t1"), ("c"), ("wireguard"), ("spec1")⟩).1 () rfl,
   (C1_apply_tunnel_surfaces_errors (mgrWith adapterOk) ⟨("t1"), ("c"), ("wireguard"), ("spec1")⟩).2
     ("apply boom") rfl⟩

/-- Claim C2 counterexample: with no active tunnels (so tunnel t1 is not
Active), POST /usage/push returns the status ok body echoing the
client-supplied bytes_used — not a UsageUnavailableError condition. -/
theorem C2_counterexample :
    agent.push_usage mgrEmpty ⟨("t1"), 42⟩ = UsageResponse.ok 42 ∧
    (agent.push_usage mgrEmpty ⟨("t1"), 42⟩).isError = false :=
  ⟨rfl, rfl⟩

/-- Claim C2 as amended: for every tunnel_id not present in
adapter_manager.active_tunnels, POST /usage/push skips sampling and
returns the status ok body with the client-supplied bytes_used unchanged;
no error condition is produced. -/
theorem C2_push_usage_unknown_echoes_client (m : AdapterManager) (data : UsagePush)
    (h : dictGet m.active_tunnels data.tunnel_id = none) :
    agent.push_usage m data = UsageResponse.ok data.bytes_used := by
  simp [agent.push_usage, h]

/-- Witness for C2's amended theorem at a concrete manager. -/
theorem C2_witness :
    agent.push_usage mgrEmpty ⟨("t9"), 7⟩ = UsageResponse.ok 7 :=
  C2_push_usage_unknown_echoes_client mgrEmpty ⟨("t9"), 7⟩ rfl

/-- Claim C3: when the tunnel_id has an adapter in active_tunnels, POST
/usage/push returns status ok with the server-authoritative value
int(get_usage_mb * 1024 * 1024), overriding whatever bytes_used the
client supplied; and an exception raised during sampling yields the
structured status error body instead of propagating. -/
theorem C3_push_usage_server_authoritative (m : AdapterManager) (tid : String) (b : Int)
    (a : Adapter) (h : dictGet m.active_tunnels tid = some a) :
    (∀ q, a.get_usage_mb tid = Except.ok q →
        agent.push_usage m ⟨tid, b⟩ = UsageResponse.ok (pyInt (q * 1024 * 1024))) ∧
    (∀ e, a.get_usage_mb tid = Except.error e →
        agent.push_usage m ⟨tid, b⟩ = UsageResponse.error e) := by
  constructor <;> intro x hx <;> simp [agent.push_usage, h, hx]

/-- Witness for C3: with an adapter reporting 5 MB the client value 999 is
overridden by 5 * 1024 * 1024 = 5242880 bytes, and a raising adapter
yields the structured error body. -/
theorem C3_witness :
    agent.push_usage (mgrWith adapterOk) ⟨("t1"), 999⟩ = UsageResponse.ok 5242880 ∧
    agent.push_usage (mgrWith adapterErr) ⟨("t1"), 999⟩ = UsageResponse.error ("usage boom") := by
  constructor
  · have h := (C3_push_usage_server_authoritative (mgrWith adapterOk) ("t1") 999 adapterOk rfl).1
      (5 : ℚ) rfl
    rw [h]
    have h2 : ((5 : ℚ) * 1024 * 1024) = (5242880 : ℚ) := by norm_num
    rw [h2]
    simp [pyInt, Rat.num_ofNat, Rat.den_ofNat]
  · exact (C3_push_usage_server_authoritative (mgrWith adapterErr) ("t1") 999 adapterErr rfl).2
      ("usage boom") rfl

/-- Claim C4: GET /status always returns status ok with active_tunnels
equal to the number of tracked active tunnels and tunnels equal to the
list of their ids, so active_tunnels always equals the length of the
tunnels list. -/
theorem C4_get_status_consistent (m : AdapterManager) :
    agent.get_status m
      = ⟨("ok"), m.active_tunnels.length, m.active_tunnels.map Prod.fst⟩ ∧
    (agent.get_status m).active_tunnels = (agent.get_status m).tunnels.length := by
  refine ⟨rfl, ?_⟩
  simp [agent.get_status]

/-- Claim C5: GET /tunnels/status returns the status success body with the
record when adapter_manager.get_tunnel_status returns normally, and
surfaces HTTPException 500 with the detail whenever it raises (including
a NotFoundError for an absent tunnel_id) — it never fabricates an ok
status for a failing lookup. -/
theorem C5_get_tunnel_status_surfaces_errors (m : AdapterManager) (tid : String) :
    (∀ r, m.get_tunnel_status tid = Except.ok r →
        agent.get_tunnel_status m tid = HandlerResult.ok ⟨("success"), r⟩) ∧
    (∀ e, m.get_tunnel_status tid = Except.error e →
        agent.get_tunnel_status m tid = HandlerResult.httpException 500 e) := by
  constructor <;> intro x h <;> simp [agent.get_tunnel_status, h]

/-- Witness for C5 at concrete managers: a successful lookup yields the
data body and a raising lookup (absent tunnel) yields a 500. -/
theorem C5_witness :
    agent.get_tunnel_status mgrEmpty ("t1") = HandlerResult.ok ⟨("success"), ("record-t1")⟩ ∧
    agent.get_tunnel_status (mgrWith adapterOk) ("zz")
      = HandlerResult.httpException 500 ("tunnel not found") :=
  ⟨(C5_get_tunnel_status_surfaces_errors mgrEmpty ("t1")).1 ("record-t1") rfl,
   (C5_get_tunnel_status_surfaces_errors (mgrWith adapterOk) ("zz")).2 ("tunnel not found") rfl⟩

/-
Embedding of src/panel/app/hysteria2_server.py.

Filesystem paths are embedded structurally (an absolute flag plus a list
of components, as in pathlib); the ambient filesystem and clock are
explicit parameters: the directories that exist, the file entries on
disk, os.access writability per directory, and for each path the outcome
an open-and-write attempt would have (none = the write raises; some n =
the file has size n afterwards, so some 0 is an empty file after write).
Every filesystem action performed by the code is also recorded in an
operation trace.
-/

/-- A pathlib-style path: absolute flag and components. -/
structure FsPath where
  absolute : Bool
  components : List String
deriving DecidableEq

/-- Path joining, base / p (the right operand is taken as relative). -/
def FsPath.join (base p : FsPath) : FsPath :=
  ⟨base.absolute, base.components ++ p.components⟩

/-- path.parent as in pathlib: drop the last component. -/
def FsPath.parent (p : FsPath) : FsPath :=
  ⟨p.absolute, p.components.dropLast⟩

/-- Rendering of a path for error messages. -/
def FsPath.render (p : FsPath) : String :=
  (if p.absolute then ("/") else ("")) ++ String.intercalate ("/") p.components

/-- OS-level resolution of a path against the working directory: a
relative path names the file cwd / p. -/
def resolve (cwd p : FsPath) : FsPath :=
  if p.absolute then p else cwd.join p

/-- An RSA private key as produced by rsa.generate_private_key. -/
structure PrivateKey where
  public_exponent : Nat
  key_size : Nat
deriving DecidableEq

/-- An X.509 certificate as assembled by the CertificateBuilder chain in
_generate_certs.  Validity instants are seconds; name attributes are
(oid, value) pairs. -/
structure Certificate where
  subject : List (String × String)
  issuer : List (String × String)
  public_key_size : Nat
  public_exponent : Nat
  serial_number : Nat
  not_valid_before : Nat
  not_valid_after : Nat
  basic_constraints_ca : Bool
  basic_constraints_path_length : Option Nat
  basic_constraints_critical : Bool
  signature_hash : String
deriving DecidableEq

/-- One day of timedelta, in seconds. -/
def day : Nat := 86400

/-- The subject/issuer x509.Name built in _generate_certs. -/
def smiteName : List (String × String) :=
  [(("COUNTRY_NAME"), ("US")), (("STATE_OR_PROVINCE_NAME"), ("CA")),
   (("LOCALITY_NAME"), ("SF")), (("ORGANIZATION_NAME"), ("Smite Panel")),
   (("COMMON_NAME"), ("Smite CA"))]

/-- rsa.generate_private_key(public_exponent, key_size). -/
def generate_private_key (public_exponent key_size : Nat) : PrivateKey :=
  ⟨public_exponent, key_size⟩

/-- The CertificateBuilder chain of _generate_certs (lines 88-103):
subject and issuer are the Smite name, the public key is the generated
key's, validity runs from utcnow() to utcnow() + 365 days, the
BasicConstraints(ca=True, path_length=None) extension is added critical,
and the certificate is signed with SHA-256. -/
def buildCertificate (key : PrivateKey) (serial now : Nat) : Certificate :=
  { subject := smiteName
    issuer := smiteName
    public_key_size := key.key_size
    public_exponent := key.public_exponent
    serial_number := serial
    not_valid_before := now
    not_valid_after := now + 365 * day
    basic_constraints_ca := true
    basic_constraints_path_length := none
    basic_constraints_critical := true
    signature_hash := ("SHA256") }

/-- The kind of PEM payload written to a file. -/
inductive FileKind where
  | certPem (cert : Certificate)
  | keyPem (key : PrivateKey)
deriving DecidableEq

/-- A file on disk: its size in bytes and its payload. -/
structure FileEntry where
  size : Nat
  content : FileKind
deriving DecidableEq

/-- Lookup of a path in the file table. -/
def findFile : List (FsPath × FileEntry) → FsPath → Option FileEntry
  | [], _ => none
  | (q, e) :: rest, p => if p = q then some e else findFile rest p

/-- Insert-or-replace of a path in the file table. -/
def setFile : List (FsPath × FileEntry) → FsPath → FileEntry → List (FsPath × FileEntry)
  | [], p, e => [(p, e)]
  | (q, d) :: rest, p, e => if p = q then (p, e) :: rest else (q, d) :: setFile rest p e

/-- The ambient filesystem: existing directories, file entries, per-dir
os.access(-, W_OK) answers, and the outcome a write attempt to each path
would have (none = raises, some n = resulting st_size). -/
structure Fs where
  dirs : List FsPath
  files : List (FsPath × FileEntry)
  writable : FsPath → Bool
  writeSize : FsPath → Option Nat

/-- Path.exists() against the file table. -/
def Fs.pathExists (fs : Fs) (p : FsPath) : Bool :=
  (findFile fs.files p).isSome

/-- Lookup of a file entry. -/
def Fs.fileEntry (fs : Fs) (p : FsPath) : Option FileEntry :=
  findFile fs.files p

/-- Path.mkdir(parents=True, exist_ok=True): records the directory; it
never raises when the directory already exists. -/
def Fs.mkdirP (fs : Fs) (d : FsPath) : Fs :=
  { fs with dirs := if d ∈ fs.dirs then fs.dirs else d :: fs.dirs }

/-- A successful write of a payload to a path, recording its size. -/
def Fs.writeFile (fs : Fs) (p : FsPath) (e : FileEntry) : Fs :=
  { fs with files := setFile fs.files p e }

/-- One filesystem operation performed by the code, for the trace. -/
inductive FsOp where
  | mkdirP (dir : FsPath)
  | checkWritable (dir : FsPath)
  | writeFile (path : FsPath) (content : FileKind)
  | statSize (path : FsPath)
  | rename (src : FsPath) (dst : FsPath)
deriving DecidableEq

/-- Whether a trace operation is a rename. -/
def FsOp.isRename : FsOp → Bool
  | .rename _ _ => true
  | _ => false

/-- Whether a trace operation writes a private-key payload. -/
def FsOp.isKeyWrite : FsOp → Bool
  | .writeFile _ (.keyPem _) => true
  | _ => false

/-- Python exceptions raised by the certificate routine. -/
inductive PyError where
  | permissionError (message : String)
  | ioError (message : String)
  | osError (message : String)
deriving DecidableEq

/-- The Hysteria2Server instance state used by the claims: the port and
the two configured identity paths. -/
structure Hysteria2Server where
  port : Nat
  cert_path : FsPath
  key_path : FsPath
deriving DecidableEq

/-- The cert_path after the relative-path handling of _generate_certs
(lines 52-60): both paths are rebased onto os.getcwd() when — and only
when — self.cert_path is relative. -/
def pyCert (cwd : FsPath) (s : Hysteria2Server) : FsPath :=
  if s.cert_path.absolute then s.cert_path else cwd.join s.cert_path

/-- The key_path after the relative-path handling of _generate_certs:
rebased exactly when self.cert_path (not self.key_path) is relative, as
in the source. -/
def pyKey (cwd : FsPath) (s : Hysteria2Server) : FsPath :=
  if s.cert_path.absolute then s.key_path else cwd.join s.key_path

/-- The OS-level file the certificate write touches. -/
def resolvedCert (cwd : FsPath) (s : Hysteria2Server) : FsPath :=
  resolve cwd (pyCert cwd s)

/-- The OS-level file the key write touches. -/
def resolvedKey (cwd : FsPath) (s : Hysteria2Server) : FsPath :=
  resolve cwd (pyKey cwd s)

/-- Hysteria2Server._generate_certs (lines 42-139): resolves the paths,
creates both parent directories (parents=True, exist_ok=True), raises
PermissionError when os.access denies write on the certificate's parent,
generates a 2048-bit RSA key with exponent 65537, builds the self-signed
CA certificate, writes the certificate PEM and verifies a non-zero
st_size (re-raising on a failed or empty write), then writes the key PEM
with the same verification, and finally updates self.cert_path and
self.key_path to the resolved paths.  Returns the final filesystem, the
trace of filesystem operations, and either the raised exception or the
updated server together with the certificate. -/
def generateCerts (fs : Fs) (now serial : Nat) (cwd : FsPath) (s : Hysteria2Server) :
    Fs × List FsOp × Except PyError (Hysteria2Server × Certificate) :=
  let cert_path := pyCert cwd s
  let key_path := pyKey cwd s
  let certOs := resolvedCert cwd s
  let keyOs := resolvedKey cwd s
  let fs1 := (fs.mkdirP (resolve cwd cert_path.parent)).mkdirP (resolve cwd key_path.parent)
  let trace0 := [FsOp.mkdirP (resolve cwd cert_path.parent),
                 FsOp.mkdirP (resolve cwd key_path.parent),
                 FsOp.checkWritable (resolve cwd cert_path.parent)]
  if fs1.writable (resolve cwd cert_path.parent) = false then
    (fs1, trace0,
     Except.error (PyError.permissionError (("Cannot write to ") ++ cert_path.parent.render)))
  else
    let private_key := generate_private_key 65537 2048
    let cert := buildCertificate private_key serial now
    match fs1.writeSize certOs with
    | none =>
        (fs1, trace0 ++ [FsOp.writeFile certOs (FileKind.certPem cert)],
         Except.error (PyError.osError (("Error writing certificate: ") ++ certOs.render)))
    | some n =>
        let fs2 := fs1.writeFile certOs ⟨n, FileKind.certPem cert⟩
        let trace1 := trace0 ++ [FsOp.writeFile certOs (FileKind.certPem cert),
                                 FsOp.statSize certOs]
        if n = 0 then
          (fs2, trace1,
           Except.error (PyError.ioError
             (("Certificate file is empty after write: ") ++ certOs.render)))
        else
          match fs2.writeSize keyOs with
          | none =>
              (fs2, trace1 ++ [FsOp.writeFile keyOs (FileKind.keyPem private_key)],
               Except.error (PyError.osError (("Error writing key: ") ++ keyOs.render)))
          | some m =>
              let fs3 := fs2.writeFile keyOs ⟨m, FileKind.keyPem private_key⟩
              let trace2 := trace1 ++ [FsOp.writeFile keyOs (FileKind.keyPem private_key),
                                       FsOp.statSize keyOs]
              if m = 0 then
                (fs3, trace2,
                 Except.error (PyError.ioError
                   (("Key file is empty after write: ") ++ keyOs.render)))
              else
                (fs3, trace2,
                 Except.ok ({ s with cert_path := cert_path, key_path := key_path }, cert))

/-- Hysteria2Server.start (lines 22-34): checks whether the configured
certificate and key files exist, and calls _generate_certs exactly when
either is missing; nothing else about the existing files (in particular
not their expiry) is inspected. -/
def start (fs : Fs) (now serial : Nat) (cwd : FsPath) (s : Hysteria2Server) :
    Fs × List FsOp × Except PyError Hysteria2Server :=
  if (!(fs.pathExists (resolve cwd s.cert_path))) || (!(fs.pathExists (resolve cwd s.key_path))) then
    match generateCerts fs now serial cwd s with
    | (fs', t, Except.ok (s', _)) => (fs', t, Except.ok s')
    | (fs', t, Except.error e) => (fs', t, Except.error e)
  else
    (fs, [], Except.ok s)

/-- mkdirP does not change the file table. -/
theorem Fs.files_mkdirP (fs : Fs) (d : FsPath) : (fs.mkdirP d).files = fs.files := rfl

/-- mkdirP does not change the writability oracle. -/
theorem Fs.writable_mkdirP (fs : Fs) (d : FsPath) : (fs.mkdirP d).writable = fs.writable := rfl

/-- mkdirP does not change the write-outcome oracle. -/
theorem Fs.writeSize_mkdirP (fs : Fs) (d : FsPath) : (fs.mkdirP d).writeSize = fs.writeSize := rfl

/-- writeFile updates the file table with setFile. -/
theorem Fs.files_writeFile (fs : Fs) (p : FsPath) (e : FileEntry) :
    (fs.writeFile p e).files = setFile fs.files p e := rfl

/-- writeFile does not change the write-outcome oracle. -/
theorem Fs.writeSize_writeFile (fs : Fs) (p : FsPath) (e : FileEntry) :
    (fs.writeFile p e).writeSize = fs.writeSize := rfl

/-- Lookup after insert-or-replace: the updated path maps to the new
entry, every other path is unchanged. -/
theorem findFile_setFile (l : List (FsPath × FileEntry)) (p q : FsPath) (e : FileEntry) :
    findFile (setFile l p e) q = if q = p then some e else findFile l q := by
  induction l with
  | nil => simp [setFile, findFile]
  | cons hd tl ih =>
      obtain ⟨a, b⟩ := hd
      by_cases hpa : p = a
      · subst hpa
        simp only [setFile, if_pos rfl, findFile]
        by_cases hqp : q = p <;> simp [hqp]
      · simp only [setFile, if_neg hpa, findFile, ih]
        have hap : ¬ a = p := fun hh => hpa hh.symm
        by_cases hqa : q = a
        · have hqp : ¬ q = p := fun hh => hpa (hh.symm.trans hqa)
          simp [hqa, hqp, hap]
        · by_cases hqp : q = p <;> simp [hqa, hqp, hap, hpa]

/-- The trace of _generate_certs always begins with the directory
creations, so it is never empty. -/
theorem generateCerts_trace_ne_nil (fs : Fs) (now serial : Nat) (cwd : FsPath)
    (s : Hysteria2Server) : (generateCerts fs now serial cwd s).2.1 ≠ [] := by
  unfold generateCerts
  by_cases hw : fs.writable (resolve cwd (pyCert cwd s).parent) = false
  · simp [Fs.writable_mkdirP, hw]
  · rcases hc : fs.writeSize (resolvedCert cwd s) with _ | n
    · simp [Fs.writable_mkdirP, Fs.writeSize_mkdirP, hw, hc]
    · by_cases hn : n = 0
      · simp [Fs.writable_mkdirP, Fs.writeSize_mkdirP, hw, hc, hn]
      · rcases hk : fs.writeSize (resolvedKey cwd s) with _ | m
        · simp [Fs.writable_mkdirP, Fs.writeSize_mkdirP, Fs.writeSize_writeFile, hw, hc, hn, hk]
        · by_cases hm : m = 0 <;>
            simp [Fs.writable_mkdirP, Fs.writeSize_mkdirP, Fs.writeSize_writeFile,
              hw, hc, hn, hk, hm]

/-- No run of _generate_certs ever performs a rename operation. -/
theorem generateCerts_no_rename (fs : Fs) (now serial : Nat) (cwd : FsPath)
    (s : Hysteria2Server) :
    (generateCerts fs now serial cwd s).2.1.any FsOp.isRename = false := by
  unfold generateCerts
  by_cases hw : fs.writable (resolve cwd (pyCert cwd s).parent) = false
  · simp [Fs.writable_mkdirP, hw, FsOp.isRename]
  · rcases hc : fs.writeSize (resolvedCert cwd s) with _ | n
    · simp [Fs.writable_mkdirP, Fs.writeSize_mkdirP, hw, hc, FsOp.isRename]
    · by_cases hn : n = 0
      · simp [Fs.writable_mkdirP, Fs.writeSize_mkdirP, hw, hc, hn, FsOp.isRename]
      · rcases hk : fs.writeSize (resolvedKey cwd s) with _ | m
        · simp [Fs.writable_mkdirP, Fs.writeSize_mkdirP, Fs.writeSize_writeFile,
            hw, hc, hn, hk, FsOp.isRename]
        · by_cases hm : m = 0 <;>
            simp [Fs.writable_mkdirP, Fs.writeSize_mkdirP, Fs.writeSize_writeFile,
              hw, hc, hn, hk, hm, FsOp.isRename]

/-- Inversion of a successful run of _generate_certs: both write attempts
returned a non-zero size, the returned server carries the resolved
paths, the certificate is the built one, and the final filesystem and
trace are the direct-write sequence. -/
theorem generateCerts_ok_inv {fs : Fs} {now serial : Nat} {cwd : FsPath}
    {s s' : Hysteria2Server} {fs' : Fs} {t : List FsOp} {cert : Certificate}
    (h : generateCerts fs now serial cwd s = (fs', t, Except.ok (s', cert))) :
    ∃ n m,
      fs.writeSize (resolvedCert cwd s) = some n ∧ n ≠ 0 ∧
      fs.writeSize (resolvedKey cwd s) = some m ∧ m ≠ 0 ∧
      s' = { port := s.port, cert_path := pyCert cwd s, key_path := pyKey cwd s } ∧
      cert = buildCertificate (generate_private_key 65537 2048) serial now ∧
      fs' = (((fs.mkdirP (resolve cwd (pyCert cwd s).parent)).mkdirP
                (resolve cwd (pyKey cwd s).parent)).writeFile (resolvedCert cwd s)
                ⟨n, FileKind.certPem cert⟩).writeFile (resolvedKey cwd s)
                ⟨m, FileKind.keyPem (generate_private_key 65537 2048)⟩ ∧
      t = [FsOp.mkdirP (resolve cwd (pyCert cwd s).parent),
           FsOp.mkdirP (resolve cwd (pyKey cwd s).parent),
           FsOp.checkWritable (resolve cwd (pyCert cwd s).parent),
           FsOp.writeFile (resolvedCert cwd s) (FileKind.certPem cert),
           FsOp.statSize (resolvedCert cwd s),
           FsOp.writeFile (resolvedKey cwd s) (FileKind.keyPem (generate_private_key 65537 2048)),
           FsOp.statSize (resolvedKey cwd s)] := by
  unfold generateCerts at h
  simp only [Fs.writable_mkdirP, Fs.writeSize_mkdirP, Fs.writeSize_writeFile] at h
  split at h
  · simp at h
  · split at h
    · simp at h
    · rename_i n heqn
      split at h
      · simp at h
      · rename_i hn0
        split at h
        · simp at h
        · rename_i m heqm
          split at h
          · simp at h
          · rename_i hm0
            simp only [Prod.mk.injEq, Except.ok.injEq] at h
            obtain ⟨hfs, ht, hs, hc⟩ := h
            subst hfs
            subst ht
            subst hs
            subst hc
            exact ⟨n, m, heqn, hn0, heqm, hm0, rfl, rfl, rfl, rfl⟩

/-- Working directory fixture. -/
def cwd0 : FsPath := ⟨true, [("srv")]⟩

/-- The configured certificate file path fixture. -/
def certOnDisk : FsPath := ⟨true, [("etc"), ("certs"), ("cert.pem")]⟩

/-- The configured key file path fixture. -/
def keyOnDisk : FsPath := ⟨true, [("etc"), ("certs"), ("key.pem")]⟩

/-- A server instance configured with absolute identity paths. -/
def s0 : Hysteria2Server := ⟨443, certOnDisk, keyOnDisk⟩

/-- An empty filesystem on which every write succeeds with 100 bytes. -/
def fs0 : Fs := ⟨[], [], fun _ => true, fun _ => some 100⟩

/-- An empty filesystem on which every write attempt raises. -/
def fsNone : Fs := ⟨[], [], fun _ => true, fun _ => none⟩

/-- An empty filesystem on which no directory is writable. -/
def fsNoWrite : Fs := ⟨[], [], fun _ => false, fun _ => some 100⟩

/-- The parent directory of the identity files. -/
def dirCerts : FsPath := ⟨true, [("etc"), ("certs")]⟩

/-- A filesystem on which the target directory already exists. -/
def fsDirs : Fs := ⟨[dirCerts], [], fun _ => true, fun _ => some 100⟩

/-- A certificate generated at time 0, hence expired long before
lateNow. -/
def expiredCert : Certificate := buildCertificate (generate_private_key 65537 2048) 1 0

/-- A filesystem already holding an expired identity at the configured
paths. -/
def fsExpired : Fs :=
  ⟨[dirCerts],
   [(certOnDisk, ⟨100, FileKind.certPem expiredCert⟩),
    (keyOnDisk, ⟨100, FileKind.keyPem (generate_private_key 65537 2048)⟩)],
   fun _ => true, fun _ => some 100⟩

/-- An instant far past the expiry of expiredCert (365 days = 31536000
seconds). -/
def lateNow : Nat := 40000000

/-- Claim C6: a successful run of certificate generation produces a
2048-bit (hence 2048-or-larger) RSA key with exponent 65537, and a
certificate carrying BasicConstraints(ca=true) as a critical extension,
signed with SHA-256, valid from the generation instant for 365 days. -/
theorem C6_certificate_parameters {fs : Fs} {now serial : Nat} {cwd : FsPath}
    {s s' : Hysteria2Server} {fs' : Fs} {t : List FsOp} {cert : Certificate}
    (h : generateCerts fs now serial cwd s = (fs', t, Except.ok (s', cert))) :
    2048 ≤ cert.public_key_size ∧
    cert.public_exponent = 65537 ∧
    cert.basic_constraints_ca = true ∧
    cert.basic_constraints_critical = true ∧
    cert.signature_hash = ("SHA256") ∧
    cert.not_valid_before = now ∧
    cert.not_valid_after = now + 365 * day := by
  obtain ⟨n, m, _, _, _, _, _, hc, _, _⟩ := generateCerts_ok_inv h
  subst hc
  exact ⟨Nat.le_refl 2048, rfl, rfl, rfl, rfl, rfl, rfl⟩

/-- Witness for C6 on a concrete successful generation at time 1000 with
serial 7. -/
theorem C6_witness :
    2048 ≤ (buildCertificate (generate_private_key 65537 2048) 7 1000).public_key_size ∧
    (buildCertificate (generate_private_key 65537 2048) 7 1000).public_exponent = 65537 ∧
    (buildCertificate (generate_private_key 65537 2048) 7 1000).basic_constraints_ca = true ∧
    (buildCertificate (generate_private_key 65537 2048) 7 1000).basic_constraints_critical
      = true ∧
    (buildCertificate (generate_private_key 65537 2048) 7 1000).signature_hash = ("SHA256") ∧
    (buildCertificate (generate_private_key 65537 2048) 7 1000).not_valid_before = 1000 ∧
    (buildCertificate (generate_private_key 65537 2048) 7 1000).not_valid_after
      = 1000 + 365 * day :=
  @C6_certificate_parameters fs0 1000 7 cwd0 s0 _ _ _ _ rfl

/-- Claim C7 counterexample: a concrete successful run writes the
certificate PEM directly at the resolved final certificate path and its
trace contains no rename operation at all, refuting the
temp-path-then-rename scheme. -/
theorem C7_counterexample :
    ((generateCerts fs0 1000 7 cwd0 s0).2.1.contains
        (FsOp.writeFile (resolvedCert cwd0 s0)
          (FileKind.certPem (buildCertificate (generate_private_key 65537 2048) 7 1000)))
      = true) ∧
    ((generateCerts fs0 1000 7 cwd0 s0).2.1.any FsOp.isRename = false) ∧
    ((generateCerts fs0 1000 7 cwd0 s0).2.2
      = Except.ok ({ port := 443, cert_path := certOnDisk, key_path := keyOnDisk },
          buildCertificate (generate_private_key 65537 2048) 7 1000)) := by
  refine ⟨by decide, by decide, rfl⟩

/-- Claim C7 as amended: each identity file is written directly to its
final path — no temporary path and no rename is ever used — and the
write is verified non-empty afterwards: an empty certificate file after
the write raises an IOError instead of being accepted. -/
theorem C7_direct_write_with_verification (fs : Fs) (now serial : Nat) (cwd : FsPath)
    (s : Hysteria2Server) :
    ((generateCerts fs now serial cwd s).2.1.any FsOp.isRename = false) ∧
    (fs.writable (resolve cwd (pyCert cwd s).parent) = true →
      fs.writeSize (resolvedCert cwd s) = some 0 →
      (generateCerts fs now serial cwd s).2.2 =
        Except.error (PyError.ioError
          (("Certificate file is empty after write: ") ++ (resolvedCert cwd s).render))) := by
  refine ⟨generateCerts_no_rename fs now serial cwd s, fun hw h0 => ?_⟩
  unfold generateCerts
  simp [Fs.writable_mkdirP, Fs.writeSize_mkdirP, hw, h0]

/-- Witness for C7's amended theorem: a writable directory whose
certificate write leaves an empty file makes generation fail with the
empty-file IOError, and the run performed no rename. -/
theorem C7_witness :
    ((generateCerts (Fs.mk [] [] (fun _ => true) (fun _ => some 0)) 1000 7 cwd0 s0).2.1.any
        FsOp.isRename = false) ∧
    (generateCerts (Fs.mk [] [] (fun _ => true) (fun _ => some 0)) 1000 7 cwd0 s0).2.2 =
      Except.error (PyError.ioError
        (("Certificate file is empty after write: ") ++ (resolvedCert cwd0 s0).render)) :=
  ⟨(C7_direct_write_with_verification (Fs.mk [] [] (fun _ => true) (fun _ => some 0))
      1000 7 cwd0 s0).1,
   (C7_direct_write_with_verification (Fs.mk [] [] (fun _ => true) (fun _ => some 0))
      1000 7 cwd0 s0).2 rfl rfl⟩

/-- The OS-level certificate target written by the resolved paths. -/
theorem resolve_pyCert (cwd : FsPath) (s : Hysteria2Server) :
    resolve cwd (pyCert cwd s) = resolvedCert cwd s := rfl

/-- The OS-level key target written by the resolved paths. -/
theorem resolve_pyKey (cwd : FsPath) (s : Hysteria2Server) :
    resolve cwd (pyKey cwd s) = resolvedKey cwd s := rfl

/-- After writing a file, the written path exists. -/
theorem pathExists_writeFile_self (fs : Fs) (p : FsPath) (e : FileEntry) :
    (fs.writeFile p e).pathExists p = true := by
  simp [Fs.pathExists, Fs.files_writeFile, findFile_setFile]

/-- Writing one file does not delete another existing one. -/
theorem pathExists_writeFile_mono (fs : Fs) (p q : FsPath) (e : FileEntry)
    (h : fs.pathExists q = true) : (fs.writeFile p e).pathExists q = true := by
  simp only [Fs.pathExists, Fs.files_writeFile, findFile_setFile]
  by_cases hqp : q = p
  · simp [hqp]
  · simpa [hqp, Fs.pathExists] using h

/-- Claim C8 counterexample: with both identity files present but the
stored certificate long expired (hence well inside any renewal
threshold), start performs no filesystem operation and regenerates
nothing — expiry is never inspected. -/
theorem C8_counterexample :
    expiredCert.not_valid_after < lateNow ∧
    fsExpired.fileEntry certOnDisk = some ⟨100, FileKind.certPem expiredCert⟩ ∧
    start fsExpired lateNow 7 cwd0 s0 = (fsExpired, [], Except.ok s0) := by
  refine ⟨by decide, by decide, rfl⟩

/-- Claim C8 as amended: start regenerates the identity exactly when the
certificate or key file is missing.  When both files exist it is a
no-op (so a second call after a first one reuses the files), a missing
file makes it run the full generation (its trace is the generation
trace, which is non-empty), and after a successful call a second call
with the returned server changes nothing.  No expiry-based regeneration
exists. -/
theorem C8_start_regenerates_only_when_missing (fs : Fs) (now serial now2 serial2 : Nat)
    (cwd : FsPath) (s : Hysteria2Server) :
    (fs.pathExists (resolve cwd s.cert_path) = true →
      fs.pathExists (resolve cwd s.key_path) = true →
      start fs now serial cwd s = (fs, [], Except.ok s)) ∧
    ((fs.pathExists (resolve cwd s.cert_path) = false ∨
      fs.pathExists (resolve cwd s.key_path) = false) →
      (start fs now serial cwd s).2.1 = (generateCerts fs now serial cwd s).2.1 ∧
      (start fs now serial cwd s).2.1 ≠ []) ∧
    (∀ fs' t s', start fs now serial cwd s = (fs', t, Except.ok s') →
      start fs' now2 serial2 cwd s' = (fs', [], Except.ok s')) := by
  refine ⟨fun h1 h2 => ?_, fun h => ?_, fun fs' t s' h => ?_⟩
  · simp [start, h1, h2]
  · have hcond : ((!(fs.pathExists (resolve cwd s.cert_path))) ||
        (!(fs.pathExists (resolve cwd s.key_path)))) = true := by
      rcases h with h | h <;> simp [h]
    have hne := generateCerts_trace_ne_nil fs now serial cwd s
    rcases hg : generateCerts fs now serial cwd s with ⟨fs'', t'', r⟩
    rw [hg] at hne
    unfold start
    rw [hg, hcond]
    rcases r with e | ⟨s'', c''⟩
    · exact ⟨rfl, hne⟩
    · exact ⟨rfl, hne⟩
  · unfold start at h
    cases hB : ((!(fs.pathExists (resolve cwd s.cert_path))) ||
        (!(fs.pathExists (resolve cwd s.key_path)))) with
    | false =>
        rw [hB] at h
        simp only [Bool.false_eq_true, if_false] at h
        simp only [Prod.mk.injEq, Except.ok.injEq] at h
        obtain ⟨hfs, ht, hs⟩ := h
        subst hfs
        subst hs
        unfold start
        rw [hB]
        simp
    | true =>
        rw [hB] at h
        simp only [if_true] at h
        rcases hg : generateCerts fs now serial cwd s with ⟨fs'', t'', r⟩
        rw [hg] at h
        rcases r with e | ⟨s'', c''⟩
        · simp at h
        · simp only [Prod.mk.injEq, Except.ok.injEq] at h
          obtain ⟨hfs, ht, hs⟩ := h
          subst hfs
          subst hs
          obtain ⟨n, m, hn, hn0, hm, hm0, hsrv, hcert, hfs2, ht2⟩ := generateCerts_ok_inv hg
          have hex1 : fs''.pathExists (resolvedCert cwd s) = true := by
            rw [hfs2]
            exact pathExists_writeFile_mono _ _ _ _ (pathExists_writeFile_self _ _ _)
          have hex2 : fs''.pathExists (resolvedKey cwd s) = true := by
            rw [hfs2]
            exact pathExists_writeFile_self _ _ _
          have hc2 : fs''.pathExists (resolve cwd s''.cert_path) = true := by
            rw [hsrv]
            simpa [resolve_pyCert] using hex1
          have hk2 : fs''.pathExists (resolve cwd s''.key_path) = true := by
            rw [hsrv]
            simpa [resolve_pyKey] using hex2
          simp [start, hc2, hk2]

/-- Witness for C8's amended theorem: from an empty filesystem a first
start generates the identity, and a second start with the returned
server is a no-op; with both files present start does nothing; with a
missing certificate the trace is the non-empty generation trace. -/
theorem C8_witness :
    start fsExpired lateNow 7 cwd0 s0 = (fsExpired, [], Except.ok s0) ∧
    ((start fs0 1000 7 cwd0 s0).2.1 = (generateCerts fs0 1000 7 cwd0 s0).2.1 ∧
      (start fs0 1000 7 cwd0 s0).2.1 ≠ []) ∧
    start (start fs0 1000 7 cwd0 s0).1 2000 9 cwd0 s0
      = ((start fs0 1000 7 cwd0 s0).1, [], Except.ok s0) := by
  refine ⟨(C8_start_regenerates_only_when_missing fsExpired lateNow 7 2000 9 cwd0 s0).1
      (by decide) (by decide),
    (C8_start_regenerates_only_when_missing fs0 1000 7 2000 9 cwd0 s0).2.1
      (Or.inl (by decide)),
    (C8_start_regenerates_only_when_missing fs0 1000 7 2000 9 cwd0 s0).2.2
      (start fs0 1000 7 cwd0 s0).1 (start fs0 1000 7 cwd0 s0).2.1 s0 rfl⟩

/-- Claim C9: directory creation during certificate generation is
idempotent — mkdir(parents=True, exist_ok=True) on an existing directory
changes nothing and does not raise — and a failed os.access write check
on the target directory makes the routine raise the PermissionError
immediately (the surfaced result is that error; nothing retries or
swallows it). -/
theorem C9_mkdir_idempotent_permission_fatal (fs : Fs) (d : FsPath) (now serial : Nat)
    (cwd : FsPath) (s : Hysteria2Server) :
    (d ∈ fs.dirs → fs.mkdirP d = fs) ∧
    (fs.writable (resolve cwd (pyCert cwd s).parent) = false →
      (generateCerts fs now serial cwd s).2.2 =
        Except.error (PyError.permissionError
          (("Cannot write to ") ++ (pyCert cwd s).parent.render))) := by
  constructor
  · intro hd
    simp [Fs.mkdirP, hd]
  · intro hw
    unfold generateCerts
    simp [Fs.writable_mkdirP, hw]

/-- Witness for C9: re-creating an existing target directory is a no-op,
and an unwritable target directory yields the PermissionError result. -/
theorem C9_witness :
    fsDirs.mkdirP dirCerts = fsDirs ∧
    (generateCerts fsNoWrite 1000 7 cwd0 s0).2.2 =
      Except.error (PyError.permissionError
        (("Cannot write to ") ++ (pyCert cwd0 s0).parent.render)) :=
  ⟨(C9_mkdir_idempotent_permission_fatal fsDirs dirCerts 1000 7 cwd0 s0).1 (by decide),
   (C9_mkdir_idempotent_permission_fatal fsNoWrite dirCerts 1000 7 cwd0 s0).2 rfl⟩

/-- Claim C10: when the certificate write fails (the write raises, or the
file is empty afterwards) the routine re-raises before the private key
is ever written — its trace contains no key-PEM write and the result is
an error, so a failed run never leaves a key file without its
certificate; and a successful run leaves both files non-empty on disk
and returns the server with cert_path and key_path updated to the
resolved paths. -/
theorem C10_cert_write_failure_precedes_key (fs : Fs) (now serial : Nat) (cwd : FsPath)
    (s : Hysteria2Server) :
    ((fs.writeSize (resolvedCert cwd s) = none ∨ fs.writeSize (resolvedCert cwd s) = some 0) →
      ((generateCerts fs now serial cwd s).2.1.any FsOp.isKeyWrite = false) ∧
      (∃ e, (generateCerts fs now serial cwd s).2.2 = Except.error e)) ∧
    (∀ fs' t s' cert, generateCerts fs now serial cwd s = (fs', t, Except.ok (s', cert)) →
      (((generateCerts fs now serial cwd s).1.fileEntry (resolvedCert cwd s)).map
          FileEntry.size).getD 0 ≠ 0 ∧
      (((generateCerts fs now serial cwd s).1.fileEntry (resolvedKey cwd s)).map
          FileEntry.size).getD 0 ≠ 0 ∧
      (generateCerts fs now serial cwd s).2.2 =
        Except.ok ({ port := s.port, cert_path := pyCert cwd s, key_path := pyKey cwd s },
          buildCertificate (generate_private_key 65537 2048) serial now)) := by
  constructor
  · intro h
    constructor
    · unfold generateCerts
      rcases h with h0 | h0 <;>
        by_cases hw : fs.writable (resolve cwd (pyCert cwd s).parent) = false <;>
          simp [Fs.writable_mkdirP, Fs.writeSize_mkdirP, hw, h0, FsOp.isKeyWrite]
    · unfold generateCerts
      rcases h with h0 | h0 <;>
        by_cases hw : fs.writable (resolve cwd (pyCert cwd s).parent) = false <;>
          simp [Fs.writable_mkdirP, Fs.writeSize_mkdirP, hw, h0]
  · intro fs' t s' cert h
    obtain ⟨n, m, hn, hn0, hm, hm0, hsrv, hcert, hfs2, ht2⟩ := generateCerts_ok_inv h
    rw [h]
    subst hsrv
    subst hcert
    refine ⟨?_, ?_, by rw [hfs2]⟩
    · rw [hfs2]
      simp only [Fs.fileEntry, Fs.files_writeFile, Fs.files_mkdirP, findFile_setFile]
      by_cases hck : resolvedCert cwd s = resolvedKey cwd s <;> simp [hck, hn0, hm0]
    · rw [hfs2]
      simp only [Fs.fileEntry, Fs.files_writeFile, Fs.files_mkdirP, findFile_setFile]
      simp [hm0]

/-- Witness for C10: a filesystem on which every write raises yields an
error with no key write in the trace, and a concrete successful run
leaves both resolved files non-empty and the server paths updated. -/
theorem C10_witness :
    (((generateCerts fsNone 1000 7 cwd0 s0).2.1.any FsOp.isKeyWrite = false) ∧
      (∃ e, (generateCerts fsNone 1000 7 cwd0 s0).2.2 = Except.error e)) ∧
    ((((generateCerts fs0 1000 7 cwd0 s0).1.fileEntry (resolvedCert cwd0 s0)).map
        FileEntry.size).getD 0 ≠ 0 ∧
      (((generateCerts fs0 1000 7 cwd0 s0).1.fileEntry (resolvedKey cwd0 s0)).map
        FileEntry.size).getD 0 ≠ 0 ∧
      (generateCerts fs0 1000 7 cwd0 s0).2.2 =
        Except.ok ({ port := s0.port, cert_path := pyCert cwd0 s0, key_path := pyKey cwd0 s0 },
          buildCertificate (generate_private_key 65537 2048) 7 1000)) :=
  ⟨(C10_cert_write_failure_precedes_key fsNone 1000 7 cwd0 s0).1 (Or.inl rfl),
   (C10_cert_write_failure_precedes_key fs0 1000 7 cwd0 s0).2 _ _ _ _ rfl⟩

end Smite
